import Mathlib

/-!
Shallow embedding of the docflow-poc document-processing pipeline.

The embedding follows the current task implementations under
`src/trigger/tasks/` (register-document.ts, download-and-prepare.ts,
classify-document.ts, store-file.ts, extract-data, store-metadata.ts),
the orchestrator `processDocumentWorkflow` (workflow file), the path
utility (`buildDocumentStoragePath`) and the registry schema
(`docs/database_schema.sql`, where `income_registry.doc_id` is UNIQUE).

External I/O (Google Drive, the Claude API, Supabase object storage and
database availability) is modelled by an explicit environment `Env` whose
boolean fields record which external calls succeed; the Supabase object
store and the registry table are explicit state threaded through the
stage functions.  Error propagation (`throw` in TypeScript) is modelled
with `Except String`.
-/

namespace DocFlow

/-- The four classifier labels of `ClassificationResult["documentType"]`. -/
inductive DocumentType
  | invoice
  | bank_statement
  | government_letter
  | unknown
deriving DecidableEq, Repr

/-- The TypeScript string literal of a document type. -/
def docTypeStr : DocumentType → String
  | .invoice => "invoice"
  | .bank_statement => "bank_statement"
  | .government_letter => "government_letter"
  | .unknown => "unknown"

/-- The registry `status` column values used by the pipeline. -/
inductive DocumentStatus
  | new
  | downloading
  | downloaded
  | download_failed
  | classifying
  | classified
  | classification_failed
  | storing
  | stored
  | store_failed
  | saving_metadata
  | processed
  | rejected
  | extraction_failed
  | metadata_storage_failed
deriving DecidableEq, Repr

/-- Raw output of the Claude classification call (`claudeClassify`). -/
structure RawClassification where
  document_type : DocumentType
  confidence : Rat
  reasoning : String
deriving DecidableEq, Repr

/-- `ClassificationResult` returned by the classify-document task. -/
structure ClassificationResult where
  documentType : DocumentType
  confidence : Rat
  reasoning : String
  possibleType : DocumentType
  claudeFileId : Option String
deriving DecidableEq, Repr

/-- `WorkflowInput`: the orchestrator payload. -/
structure WorkflowInput where
  fileId : String
  fileName : String
  mimeType : String
  createdTime : String
deriving DecidableEq, Repr

/-- `WorkflowOutput`: what the orchestrator run returns on a non-thrown path. -/
structure WorkflowOutput where
  status : DocumentStatus
  documentType : DocumentType
  confidence : Rat
  registryId : String
  docId : String
  pdfStoragePath : String
  jsonStoragePath : Option String
  inboxCleaned : Bool
  error : Option String
deriving DecidableEq, Repr

/-- `FileMetadata` produced by the download stage. -/
structure FileMetadata where
  fileName : String
  mimeType : String
  size : Nat
  createdTime : String
deriving DecidableEq, Repr

/-- Extracted invoice payload; the orchestrator treats its contents opaquely
(pass-through to the metadata stage), so only an opaque tag is modelled. -/
structure InvoiceData where
  payload : String
deriving DecidableEq, Repr

/-- Extracted bank-statement payload, treated opaquely by the orchestrator. -/
structure StatementData where
  payload : String
deriving DecidableEq, Repr

/-- Extracted government-letter payload, treated opaquely by the orchestrator. -/
structure LetterData where
  payload : String
deriving DecidableEq, Repr

/-- The `extractedData` shape passed to the store-metadata task:
`{ invoiceData?, statementData?, letterData? }`. -/
structure ExtractedData where
  invoiceData : Option InvoiceData := none
  statementData : Option StatementData := none
  letterData : Option LetterData := none
deriving DecidableEq, Repr

/-- One row of the `income_registry` table (see docs/database_schema.sql). -/
structure RegRow where
  docId : String
  fileName : String
  mimeType : String
  status : DocumentStatus
  classification : Option DocumentType
  confidence : Option Rat
  reasoning : Option String
  possibleType : Option DocumentType
  storagePathPdf : Option String
  storagePathJson : Option String
  errorMessage : Option String
  registeredAt : Bool
  processedAt : Bool
deriving DecidableEq, Repr

/-- Contents stored in the Supabase object store. -/
inductive ObjContent
  | pdfFile (sourceFileId : String)
  | jsonFile (docId : String)
deriving DecidableEq, Repr

/-- Durable state touched by the pipeline: the registry table, the object
store (association list keyed by path), a counter of Google Drive API calls,
and the three type-specific tables (rows identified by `doc_id`, which is
UNIQUE in each of them; row contents are irrelevant to the claims). -/
structure PipeState where
  registry : List RegRow
  objects : List (String × ObjContent)
  driveCalls : Nat
  invoicesTable : List String
  statementsTable : List String
  lettersTable : List String
deriving DecidableEq, Repr

/-- The empty initial state. -/
def initState : PipeState :=
  { registry := [], objects := [], driveCalls := 0,
    invoicesTable := [], statementsTable := [], lettersTable := [] }

/-- Registry lookup by `doc_id`. -/
def getRow (docId : String) (reg : List RegRow) : Option RegRow :=
  reg.find? (fun r => r.docId == docId)

/-- `UPDATE income_registry SET ... WHERE doc_id = ...`. -/
def updateRow (docId : String) (f : RegRow → RegRow) (reg : List RegRow) : List RegRow :=
  reg.map (fun r => if r.docId == docId then f r else r)

/-- Object-store write (S3 put overwrites an existing key). -/
def putObj (k : String) (v : ObjContent) (s : List (String × ObjContent)) :
    List (String × ObjContent) :=
  (k, v) :: s.filter (fun p => p.1 != k)

/-- Object-store read. -/
def lookupObj (k : String) (s : List (String × ObjContent)) : Option ObjContent :=
  (s.find? (fun p => p.1 == k)).map (·.2)

/-- Object-store delete. -/
def delObj (k : String) (s : List (String × ObjContent)) : List (String × ObjContent) :=
  s.filter (fun p => p.1 != k)

/-- `INSERT ... ON CONFLICT (doc_id) DO UPDATE` on a type-specific table:
the set of row identifiers gains `docId` only if absent. -/
def upsertId (docId : String) (l : List String) : List String :=
  if l.contains docId then l else l ++ [docId]

/-- Environment: outcomes of the external collaborators for one run. -/
structure Env where
  registerDbOk : Bool
  registerErr : String
  driveOk : Bool
  driveErr : String
  fileSize : Nat
  driveCreatedTime : String
  classifyInfraOk : Bool
  classifyOk : Bool
  classifyErr : String
  claudeFileId : String
  rawClassification : RawClassification
  driveMoveConfigured : Bool
  storeOk : Bool
  storeErr : String
  storeYear : Nat
  storeMonth : Nat
  extractOk : Bool
  extractErr : String
  invoicePayload : InvoiceData
  statementPayload : StatementData
  letterPayload : LetterData
  metadataOk : Bool
  metadataErr : String
  metaYear : Nat
  metaMonth : Nat
deriving DecidableEq, Repr

/-- `String(month).padStart(2, "0")` for a month number `1..12`. -/
def month2 (m : Nat) : String :=
  if m < 10 then "0" ++ toString m else toString m

/-- The confidence threshold of the classify stage and the extraction gate,
`0.8`, written as an exact rational. -/
def confidenceThreshold : Rat := mkRat 4 5

/-- JavaScript truthiness of a `string | null | undefined` value. -/
def jsTruthy : Option String → Bool
  | none => false
  | some s => s != ""

/-- Update the status of a registry row. -/
def setStatus (docId : String) (s : DocumentStatus) (st : PipeState) : PipeState :=
  { st with registry := updateRow docId (fun r => { r with status := s }) st.registry }

/-- Update the status and error message of a registry row. -/
def setStatusErr (docId : String) (s : DocumentStatus) (msg : String) (st : PipeState) :
    PipeState :=
  { st with registry :=
      updateRow docId (fun r => { r with status := s, errorMessage := some msg }) st.registry }

/-- Output of the register-document task. -/
structure RegisterOutput where
  registryId : String
  docId : String
deriving DecidableEq, Repr

/-- The fresh registry row inserted by registration. -/
def initRow (payload : WorkflowInput) : RegRow :=
  { docId := payload.fileId, fileName := payload.fileName, mimeType := payload.mimeType,
    status := .new, classification := none, confidence := none, reasoning := none,
    possibleType := none, storagePathPdf := none, storagePathJson := none,
    errorMessage := none, registeredAt := true, processedAt := false }

/-- The register-document task (tasks/register-document.ts).  The write is a
plain `INSERT INTO income_registry ... RETURNING id, doc_id`; since
`doc_id` is declared UNIQUE in docs/database_schema.sql, an insert for an
already-registered `doc_id` raises a constraint violation, which the task
wraps and rethrows. -/
def registerDocumentRun (payload : WorkflowInput) (env : Env) (st : PipeState) :
    PipeState × Except String RegisterOutput :=
  if env.registerDbOk then
    match getRow payload.fileId st.registry with
    | some _ =>
        (st, .error
          "Failed to register document: duplicate key value violates unique constraint")
    | none =>
        ({ st with registry := st.registry ++ [initRow payload] },
         .ok { registryId := "reg-" ++ payload.fileId, docId := payload.fileId })
  else
    (st, .error ("Failed to register document: " ++ env.registerErr))

/-- Payload of the download-and-prepare task. -/
structure DownloadPayload where
  docId : String
  fileId : String
  fileName : String
  mimeType : String
deriving DecidableEq, Repr

/-- Output of the download-and-prepare task. -/
structure DownloadOutput where
  storagePath : String
  metadata : FileMetadata
deriving DecidableEq, Repr

/-- The download-and-prepare task (tasks/download-and-prepare.ts): sets status
`downloading`, rejects any MIME type other than `application/pdf` before any
Google Drive call (recording `download_failed` with the message, then
throwing; the outer catch re-records the same message), otherwise fetches
metadata and contents from Drive (two API calls), uploads the staging copy to
`inbox/{docId}.pdf` and sets status `downloaded`.  A Drive failure records
`download_failed` and rethrows. -/
def downloadAndPrepareRun (p : DownloadPayload) (env : Env) (st : PipeState) :
    PipeState × Except String DownloadOutput :=
  let st1 := setStatus p.docId .downloading st
  if p.mimeType = "application/pdf" then
    if env.driveOk then
      let st2 := { st1 with driveCalls := st1.driveCalls + 2 }
      let storageKey := "inbox/" ++ p.docId ++ ".pdf"
      let st3 := { st2 with objects := putObj storageKey (.pdfFile p.fileId) st2.objects }
      let st4 := setStatus p.docId .downloaded st3
      (st4, .ok { storagePath := storageKey,
                  metadata := { fileName := p.fileName, mimeType := p.mimeType,
                                size := env.fileSize, createdTime := env.driveCreatedTime } })
    else
      let st2 := { st1 with driveCalls := st1.driveCalls + 1 }
      let st3 := setStatusErr p.docId .download_failed env.driveErr st2
      (st3, .error ("Failed to download and prepare file: " ++ env.driveErr))
  else
    let msg := "Unsupported MIME type: " ++ p.mimeType
    let st2 := setStatusErr p.docId .download_failed msg st1
    let st3 := setStatusErr p.docId .download_failed msg st2
    (st3, .error ("Failed to download and prepare file: " ++ msg))

/-- The low-confidence reasoning text built by the classify task (the
`toFixed(2)` number rendering is abstracted to `toString`). -/
def lowConfidenceReasoning (raw : RawClassification) : String :=
  "Low confidence (" ++ toString raw.confidence ++ "). Original classification: "
    ++ docTypeStr raw.document_type ++ ". " ++ raw.reasoning

/-- The type recorded by the classify task after the 0.8 confidence
threshold: the raw label when `confidence >= 0.8`, else `unknown`. -/
def thresholdedType (env : Env) : DocumentType :=
  if confidenceThreshold ≤ env.rawClassification.confidence then env.rawClassification.document_type
  else .unknown

/-- The reasoning text recorded by the classify task. -/
def thresholdedReasoning (env : Env) : String :=
  if confidenceThreshold ≤ env.rawClassification.confidence then env.rawClassification.reasoning
  else lowConfidenceReasoning env.rawClassification

/-- The `ClassificationResult` value returned by the classify-document task:
the thresholded type with the raw label preserved in `possibleType` on
success, and the `unknown` fallback (confidence 0, no Claude file id) when
any of its external calls failed. -/
def classifyResult (env : Env) : ClassificationResult :=
  if env.classifyOk then
    { documentType := thresholdedType env, confidence := env.rawClassification.confidence,
      reasoning := thresholdedReasoning env,
      possibleType := env.rawClassification.document_type,
      claudeFileId := some env.claudeFileId }
  else
    { documentType := .unknown, confidence := 0,
      reasoning := "Classification failed: " ++ env.classifyErr,
      possibleType := .unknown, claudeFileId := none }

/-- The classify-document task (tasks/classify-document.ts): sets status
`classifying`; on success of the storage download, Claude file upload and
classification call (jointly `env.classifyOk`) applies the 0.8 confidence
threshold, records the thresholded type with the raw label in
`possible_type`, and returns the result with the Claude file id; any error is
caught and degraded to an `unknown` fallback result (the task never
throws). -/
def classifyDocumentRun (docId : String) (storagePath : String) (env : Env) (st : PipeState) :
    PipeState × ClassificationResult :=
  let _ := storagePath
  let st1 := setStatus docId .classifying st
  if env.classifyOk then
    let raw := env.rawClassification
    let st2 := { st1 with registry := updateRow docId (fun r =>
      { r with status := .classified, classification := some (thresholdedType env),
               confidence := some raw.confidence,
               reasoning := some (thresholdedReasoning env),
               possibleType := some raw.document_type }) st1.registry }
    (st2, classifyResult env)
  else
    let msg := env.classifyErr
    let st2 := { st1 with registry := updateRow docId (fun r =>
      { r with status := .classification_failed, classification := some .unknown,
               confidence := some 0, reasoning := some ("Classification failed: " ++ msg),
               possibleType := some .unknown, errorMessage := some msg }) st1.registry }
    (st2, classifyResult env)

/-- `folderNameMap` of tasks/store-file.ts. -/
def folderNameMap : DocumentType → String
  | .invoice => "invoices"
  | .bank_statement => "statements"
  | .government_letter => "letters"
  | .unknown => "unknown"

/-- `getDocumentFolder` of the storage-path utility module. -/
def getDocumentFolder (documentType : DocumentType) : String :=
  folderNameMap documentType

/-- `buildDocumentStoragePath` of the storage-path utility module:
`{folder}/{year}/{month}/{docId}.{extension}`. -/
def buildDocumentStoragePath (documentType : DocumentType) (docId : String)
    (extension : String) (year : Nat) (month : Nat) : String :=
  getDocumentFolder documentType ++ "/" ++ toString year ++ "/" ++ month2 month
    ++ "/" ++ docId ++ "." ++ extension

/-- Payload of the store-file task. -/
structure StorePayload where
  docId : String
  fileId : String
  storagePath : String
  fileName : String
  documentType : DocumentType
  metadata : FileMetadata
deriving DecidableEq, Repr

/-- Output of the store-file task. -/
structure StoreOutput where
  stored : Bool
  storagePath : String
  deletedFromInbox : Bool
deriving DecidableEq, Repr

/-- The store-file task (tasks/store-file.ts), the safe point: sets status
`storing`, computes the permanent path from `folderNameMap`, the current date
and the doc id, copies the staging object there, moves the Drive file to the
processed folder (one Drive call when configured; failures are non-fatal),
deletes the staging object, and records `stored` with `storage_path_pdf`.
A storage failure records `store_failed` and rethrows. -/
def storeFileRun (p : StorePayload) (env : Env) (st : PipeState) :
    PipeState × Except String StoreOutput :=
  let st1 := setStatus p.docId .storing st
  let finalStoragePath := folderNameMap p.documentType ++ "/" ++ toString env.storeYear
      ++ "/" ++ month2 env.storeMonth ++ "/" ++ p.docId ++ ".pdf"
  if env.storeOk then
    let st2 := match lookupObj p.storagePath st1.objects with
      | some c => { st1 with objects := putObj finalStoragePath c st1.objects }
      | none => st1
    let st3 := if env.driveMoveConfigured then { st2 with driveCalls := st2.driveCalls + 1 }
               else st2
    let st4 := { st3 with objects := delObj p.storagePath st3.objects }
    let st5 := { st4 with registry := updateRow p.docId (fun r =>
      { r with status := .stored, storagePathPdf := some finalStoragePath }) st4.registry }
    (st5, .ok { stored := true, storagePath := finalStoragePath, deletedFromInbox := true })
  else
    let st2 := setStatusErr p.docId .store_failed env.storeErr st1
    (st2, .error ("Failed to store file: " ++ env.storeErr))

/-- The extract-invoice-data task: requires a Claude file id, then calls the
Claude extraction API; it touches no registry or storage state. -/
def extractInvoiceDataRun (claudeFileId : Option String) (env : Env) :
    Except String ExtractedData :=
  match claudeFileId with
  | none => .error "Claude File ID is required for invoice extraction"
  | some _ =>
      if env.extractOk then .ok { invoiceData := some env.invoicePayload }
      else .error ("Failed to extract invoice data: " ++ env.extractErr)

/-- The extract-statement-data task; see `extractInvoiceDataRun`. -/
def extractStatementDataRun (claudeFileId : Option String) (env : Env) :
    Except String ExtractedData :=
  match claudeFileId with
  | none => .error "Claude File ID is required for statement extraction"
  | some _ =>
      if env.extractOk then .ok { statementData := some env.statementPayload }
      else .error ("Failed to extract statement data: " ++ env.extractErr)

/-- The extract-letter-data task; see `extractInvoiceDataRun`. -/
def extractLetterDataRun (claudeFileId : Option String) (env : Env) :
    Except String ExtractedData :=
  match claudeFileId with
  | none => .error "Claude File ID is required for letter extraction"
  | some _ =>
      if env.extractOk then .ok { letterData := some env.letterPayload }
      else .error ("Failed to extract letter data: " ++ env.extractErr)

/-- The final-status computation of the store-metadata task, verbatim:
`extraction_failed` on a truthy extraction error, else `rejected` when there
is no extracted payload or the document type is `unknown`, else `processed`. -/
def determineFinalStatus (extractionError : Option String)
    (extractedData : Option ExtractedData) (documentType : DocumentType) : DocumentStatus :=
  if jsTruthy extractionError then .extraction_failed
  else if extractedData.isNone || (documentType == .unknown) then .rejected
  else .processed

/-- Payload of the store-metadata task. -/
structure MetaPayload where
  docId : String
  documentType : DocumentType
  classification : Option ClassificationResult
  extractedData : Option ExtractedData
  extractionError : Option String
deriving DecidableEq, Repr

/-- Output of the store-metadata task. -/
structure MetaOutput where
  registryId : String
  status : DocumentStatus
  jsonStoragePath : Option String
deriving DecidableEq, Repr

/-- The store-metadata task (store-metadata.ts): sets status
`saving_metadata`; on success uploads the JSON metadata object (only when
extracted data is present) at `{documentType}/{year}/{month}/{docId}.json`,
updates the registry row with the final status, the JSON path, the
extraction error message and `processed_at`, and upserts the type-specific
table row when the final status is `processed`; on failure records
`metadata_storage_failed` and rethrows. -/
def storeMetadataRun (p : MetaPayload) (env : Env) (st : PipeState) :
    PipeState × Except String MetaOutput :=
  let st1 := setStatus p.docId .saving_metadata st
  if env.metadataOk then
    let jsonStoragePath : Option String :=
      if p.extractedData.isSome then
        some (docTypeStr p.documentType ++ "/" ++ toString env.metaYear ++ "/"
          ++ month2 env.metaMonth ++ "/" ++ p.docId ++ ".json")
      else none
    let st2 := match jsonStoragePath with
      | some jp => { st1 with objects := putObj jp (.jsonFile p.docId) st1.objects }
      | none => st1
    let finalStatus := determineFinalStatus p.extractionError p.extractedData p.documentType
    let st3 := { st2 with registry := updateRow p.docId (fun r =>
        { r with status := finalStatus, storagePathJson := jsonStoragePath,
                 errorMessage := if jsTruthy p.extractionError then p.extractionError else none,
                 processedAt := true }) st2.registry }
    let st4 :=
      if p.extractedData.isSome && (finalStatus == .processed) then
        match p.extractedData with
        | some d =>
            if d.invoiceData.isSome then
              { st3 with invoicesTable := upsertId p.docId st3.invoicesTable }
            else if d.statementData.isSome then
              { st3 with statementsTable := upsertId p.docId st3.statementsTable }
            else if d.letterData.isSome then
              { st3 with lettersTable := upsertId p.docId st3.lettersTable }
            else st3
        | none => st3
      else st3
    (st4, .ok { registryId := "reg_" ++ p.docId, status := finalStatus,
                jsonStoragePath := jsonStoragePath })
  else
    let st2 := { st1 with registry := updateRow p.docId (fun r =>
        { r with status := .metadata_storage_failed,
                 errorMessage := some env.metadataErr }) st1.registry }
    (st2, .error ("Failed to store metadata: " ++ env.metadataErr))

/-- The stages the orchestrator can invoke. -/
inductive Stage
  | register
  | download
  | classify
  | store
  | extractInvoice
  | extractStatement
  | extractLetter
  | persistMetadata
deriving DecidableEq, Repr

/-- Whether a stage is one of the three extraction variants. -/
def Stage.isExtract : Stage → Bool
  | .extractInvoice => true
  | .extractStatement => true
  | .extractLetter => true
  | _ => false

/-- An idempotency key as created by `idempotencyKeys.create(seed, {scope})`. -/
structure IdemKey where
  seed : String
  scope : String
deriving DecidableEq, Repr

/-- The key created once per run: derived from `payload.fileId`, global scope. -/
def mkIdempotencyKey (fileId : String) : IdemKey :=
  { seed := fileId, scope := "global" }

/-- `IDEMPOTENCY_KEY_TTL` of the orchestrator. -/
def idempotencyKeyTTL : String := "10m"

/-- A record of one `triggerAndWait` stage invocation: the stage, the
idempotency options passed, and (for extraction stages) the Claude file id
argument. -/
structure Invocation where
  stage : Stage
  key : IdemKey
  ttl : String
  claudeFileId : Option String := none
deriving DecidableEq, Repr

/-- An invocation record for a non-extraction stage. -/
def call (s : Stage) (key : IdemKey) : Invocation :=
  { stage := s, key := key, ttl := idempotencyKeyTTL }

/-- An invocation record for an extraction stage carrying its argument. -/
def extractCall (s : Stage) (key : IdemKey) (claudeFileId : Option String) : Invocation :=
  { stage := s, key := key, ttl := idempotencyKeyTTL, claudeFileId := claudeFileId }

/-- STEP 4 of the orchestrator: extraction is attempted only when the
document type is not `unknown` and the confidence is at least 0.8; the
variant is dispatched on the document type; a failure is degraded into
`extractionError` and the run continues without a payload. -/
def runExtraction (documentType : DocumentType) (confidence : Rat)
    (claudeFileId : Option String) (key : IdemKey) (env : Env) :
    List Invocation × Option ExtractedData × Option String :=
  if documentType ≠ DocumentType.unknown ∧ confidenceThreshold ≤ confidence then
    match documentType with
    | .invoice =>
        (match extractInvoiceDataRun claudeFileId env with
         | .ok d => ([extractCall .extractInvoice key claudeFileId], some d, none)
         | .error e => ([extractCall .extractInvoice key claudeFileId], none, some e))
    | .bank_statement =>
        (match extractStatementDataRun claudeFileId env with
         | .ok d => ([extractCall .extractStatement key claudeFileId], some d, none)
         | .error e => ([extractCall .extractStatement key claudeFileId], none, some e))
    | .government_letter =>
        (match extractLetterDataRun claudeFileId env with
         | .ok d => ([extractCall .extractLetter key claudeFileId], some d, none)
         | .error e => ([extractCall .extractLetter key claudeFileId], none, some e))
    | .unknown => ([], none, none)
  else ([], none, none)

/-- The orchestrator `processDocumentWorkflow`: creates one global
idempotency key from `payload.fileId` and drives
Register → Download → Classify → Store → Extract → Persist-Metadata,
passing the key with the 10-minute TTL to every `triggerAndWait`.
Register, store and metadata failures are rethrown (`Except.error`);
a download failure returns a `download_failed` output; a classification
failure degrades to `unknown` defaults.  Returns the final durable state,
the list of stage invocations, and the result. -/
def processDocumentWorkflow (payload : WorkflowInput) (env : Env) (st0 : PipeState) :
    PipeState × List Invocation × Except String WorkflowOutput :=
  let key := mkIdempotencyKey payload.fileId
  let step0 := registerDocumentRun payload env st0
  let st1 := step0.1
  match step0.2 with
  | .error e =>
      (st1, [call .register key], .error ("Failed to register document: " ++ e))
  | .ok reg =>
    let step1 := downloadAndPrepareRun
        { docId := reg.docId, fileId := payload.fileId,
          fileName := payload.fileName, mimeType := payload.mimeType } env st1
    let st2 := step1.1
    match step1.2 with
    | .error e =>
        (st2, [call .register key, call .download key],
         .ok { status := .download_failed, documentType := .unknown, confidence := 0,
               registryId := reg.registryId, docId := reg.docId, pdfStoragePath := "",
               jsonStoragePath := none, inboxCleaned := false, error := some e })
    | .ok dl =>
      let st3 :=
        if env.classifyInfraOk then (classifyDocumentRun reg.docId dl.storagePath env st2).1
        else st2
      let classificationResult : Option ClassificationResult :=
        if env.classifyInfraOk then some (classifyResult env) else none
      let documentType := (classificationResult.map (·.documentType)).getD .unknown
      let confidence := (classificationResult.map (·.confidence)).getD 0
      let claudeFileId := classificationResult.bind (·.claudeFileId)
      let step3 := storeFileRun
          { docId := reg.docId, fileId := payload.fileId, storagePath := dl.storagePath,
            fileName := payload.fileName, documentType := documentType,
            metadata := dl.metadata } env st3
      let st4 := step3.1
      match step3.2 with
      | .error e =>
          (st4, [call .register key, call .download key, call .classify key, call .store key],
           .error ("File storage failed: " ++ e))
      | .ok stOut =>
        let step4 := runExtraction documentType confidence claudeFileId key env
        let extractedData := step4.2.1
        let extractionError := step4.2.2
        let step5 := storeMetadataRun
            { docId := reg.docId, documentType := documentType,
              classification := classificationResult, extractedData := extractedData,
              extractionError := extractionError } env st4
        let st5 := step5.1
        match step5.2 with
        | .error e =>
            (st5, [call .register key, call .download key, call .classify key, call .store key]
              ++ step4.1 ++ [call .persistMetadata key],
             .error ("Metadata storage failed: " ++ e))
        | .ok md =>
            (st5, [call .register key, call .download key, call .classify key, call .store key]
              ++ step4.1 ++ [call .persistMetadata key],
             .ok { status := md.status, documentType := documentType,
                   confidence := confidence, registryId := reg.registryId, docId := reg.docId,
                   pdfStoragePath := stOut.storagePath, jsonStoragePath := md.jsonStoragePath,
                   inboxCleaned := stOut.deletedFromInbox, error := none })


/-! Helper lemmas about the registry and object-store operations. -/

theorem getRow_updateRow (d : String) (f : RegRow → RegRow)
    (hid : ∀ r, (f r).docId = r.docId) (reg : List RegRow) :
    getRow d (updateRow d f reg) = (getRow d reg).map f := by
  unfold getRow updateRow
  rw [List.find?_map]
  have hp : ((fun r : RegRow => r.docId == d) ∘ fun r => if r.docId == d then f r else r)
      = fun r : RegRow => r.docId == d := by
    funext r
    by_cases h : r.docId = d
    · simp [h, hid]
    · simp [h]
  rw [hp]
  cases hfind : List.find? (fun r : RegRow => r.docId == d) reg with
  | none => rfl
  | some r =>
    have hr : (r.docId == d) = true := List.find?_some (p := fun r : RegRow => r.docId == d) hfind
    simp [Option.map, hr]

theorem getRow_updateRow_proj {β : Type} (d d' : String) (f : RegRow → RegRow) (g : RegRow → β)
    (hid : ∀ r, (f r).docId = r.docId) (hg : ∀ r, g (f r) = g r) (reg : List RegRow) :
    (getRow d (updateRow d' f reg)).map g = (getRow d reg).map g := by
  unfold getRow updateRow
  rw [List.find?_map]
  have hp : ((fun r : RegRow => r.docId == d) ∘ fun r => if r.docId == d' then f r else r)
      = fun r : RegRow => r.docId == d := by
    funext r
    by_cases h : r.docId = d'
    · simp [h, hid]
    · simp [h]
  rw [hp]
  cases hfind : List.find? (fun r : RegRow => r.docId == d) reg with
  | none => rfl
  | some r =>
    by_cases h : r.docId = d'
    · simp [Option.map, h, hg]
    · simp [Option.map, h]

theorem getRow_append_of_none (d : String) (reg : List RegRow) (row : RegRow)
    (h : getRow d reg = none) :
    getRow d (reg ++ [row]) = if row.docId == d then some row else none := by
  unfold getRow at h ⊢
  rw [List.find?_append, h]
  cases hb : row.docId == d <;> simp [List.find?_cons, hb]

theorem find?_filter_ne {α : Type} (k k' : String) (h : k' ≠ k) (s : List (String × α)) :
    (s.filter (fun p => p.1 != k)).find? (fun p => p.1 == k') =
      s.find? (fun p => p.1 == k') := by
  induction s with
  | nil => rfl
  | cons a t ih =>
    rw [List.filter_cons]
    by_cases h1 : a.1 = k
    · rw [if_neg (by simp [h1])]
      rw [List.find?_cons_of_neg _ (by simp [h1]; exact Ne.symm h)]
      exact ih
    · rw [if_pos (by simp [h1])]
      by_cases h2 : a.1 = k'
      · rw [List.find?_cons_of_pos _ (by simp [h2]),
          List.find?_cons_of_pos _ (by simp [h2])]
      · rw [List.find?_cons_of_neg _ (by simp [h2]),
          List.find?_cons_of_neg _ (by simp [h2])]
        exact ih

theorem lookupObj_putObj_self (k : String) (v : ObjContent) (s : List (String × ObjContent)) :
    lookupObj k (putObj k v s) = some v := by
  unfold lookupObj putObj
  rw [List.find?_cons_of_pos _ (by simp)]
  rfl

theorem lookupObj_putObj_ne (k k' : String) (v : ObjContent) (s : List (String × ObjContent))
    (h : k' ≠ k) : lookupObj k' (putObj k v s) = lookupObj k' s := by
  unfold lookupObj putObj
  rw [List.find?_cons_of_neg _ (by simpa using Ne.symm h)]
  rw [find?_filter_ne k k' h s]

theorem lookupObj_delObj_ne (k k' : String) (s : List (String × ObjContent))
    (h : k' ≠ k) : lookupObj k' (delObj k s) = lookupObj k' s := by
  unfold lookupObj delObj
  rw [find?_filter_ne k k' h s]

/-! String inequality lemmas for the storage paths. -/

theorem jsonPath_ne_pdfPath (a b : String) : a ++ ".json" ≠ b ++ ".pdf" := by
  intro h
  have h2 : (a ++ ".json").data.getLast? = (b ++ ".pdf").data.getLast? := by rw [h]
  rw [String.data_append, String.data_append] at h2
  rw [List.getLast?_append_of_ne_nil _ (by decide),
    List.getLast?_append_of_ne_nil _ (by decide)] at h2
  revert h2
  decide

theorem storePath_ne_inboxPath (dt : DocumentType) (y m d d' : String) :
    folderNameMap dt ++ "/" ++ y ++ "/" ++ m ++ "/" ++ d ++ ".pdf" ≠
      "inbox/" ++ d' ++ ".pdf" := by
  intro h
  have h2 : (folderNameMap dt ++ "/" ++ y ++ "/" ++ m ++ "/" ++ d ++ ".pdf").data.take 3 =
      ("inbox/" ++ d' ++ ".pdf").data.take 3 := by rw [h]
  simp only [String.data_append, List.append_assoc] at h2
  cases dt <;>
    · simp only [folderNameMap] at h2
      rw [List.take_append_of_le_length (by decide),
        List.take_append_of_le_length (by decide)] at h2
      revert h2
      decide

/-! Stage-level lemmas. -/

theorem runExtraction_mem (dt : DocumentType) (conf : Rat) (cfid : Option String)
    (key : IdemKey) (env : Env) (inv : Invocation)
    (h : inv ∈ (runExtraction dt conf cfid key env).1) :
    inv.key = key ∧ inv.ttl = idempotencyKeyTTL ∧ inv.claudeFileId = cfid ∧
      inv.stage.isExtract = true ∧ dt ≠ DocumentType.unknown ∧ confidenceThreshold ≤ conf := by
  unfold runExtraction at h
  by_cases hg : dt ≠ DocumentType.unknown ∧ confidenceThreshold ≤ conf
  · rw [if_pos hg] at h
    cases dt with
    | invoice =>
        cases hx : extractInvoiceDataRun cfid env <;>
          · rw [hx] at h
            simp only [List.mem_singleton] at h
            subst h
            exact ⟨rfl, rfl, rfl, rfl, hg.1, hg.2⟩
    | bank_statement =>
        cases hx : extractStatementDataRun cfid env <;>
          · rw [hx] at h
            simp only [List.mem_singleton] at h
            subst h
            exact ⟨rfl, rfl, rfl, rfl, hg.1, hg.2⟩
    | government_letter =>
        cases hx : extractLetterDataRun cfid env <;>
          · rw [hx] at h
            simp only [List.mem_singleton] at h
            subst h
            exact ⟨rfl, rfl, rfl, rfl, hg.1, hg.2⟩
    | unknown => simp at h
  · rw [if_neg hg] at h
    simp at h

theorem runExtraction_of_lowConfidence (dt : DocumentType) (conf : Rat) (cfid : Option String)
    (key : IdemKey) (env : Env) (h : conf < confidenceThreshold) :
    runExtraction dt conf cfid key env = ([], none, none) := by
  unfold runExtraction
  rw [if_neg (fun hg => absurd hg.2 (not_le.mpr h))]

theorem classifyResult_claudeFileId_of_ne_unknown (env : Env)
    (h : (classifyResult env).documentType ≠ DocumentType.unknown) :
    (classifyResult env).claudeFileId = some env.claudeFileId := by
  unfold classifyResult at h ⊢
  cases hc : env.classifyOk
  · rw [hc] at h
    simp at h
  · simp

theorem classifyResult_confidence_lt (env : Env)
    (h : env.rawClassification.confidence < confidenceThreshold) :
    (classifyResult env).confidence < confidenceThreshold := by
  unfold classifyResult
  cases hc : env.classifyOk <;> simp [h]
  decide

theorem classifyDocumentRun_objects (docId storagePath : String) (env : Env) (st : PipeState) :
    (classifyDocumentRun docId storagePath env st).1.objects = st.objects := by
  unfold classifyDocumentRun
  cases hc : env.classifyOk <;> simp [setStatus]

theorem classifyDocumentRun_snd (docId storagePath : String) (env : Env) (st : PipeState) :
    (classifyDocumentRun docId storagePath env st).2 = classifyResult env := by
  unfold classifyDocumentRun
  cases hc : env.classifyOk <;> simp

theorem getRow_updateRow_isSome (d d' : String) (f : RegRow → RegRow)
    (hid : ∀ r, (f r).docId = r.docId) (reg : List RegRow) :
    (getRow d (updateRow d' f reg)).isSome = (getRow d reg).isSome := by
  have h := getRow_updateRow_proj d d' f (fun _ => true) hid (fun r => rfl) reg
  cases h1 : getRow d (updateRow d' f reg) <;> cases h2 : getRow d reg <;>
    rw [h1, h2] at h <;> simp_all

theorem classifyDocumentRun_row_isSome (docId storagePath : String) (env : Env)
    (st : PipeState) (d : String) :
    (getRow d (classifyDocumentRun docId storagePath env st).1.registry).isSome =
      (getRow d st.registry).isSome := by
  unfold classifyDocumentRun
  cases hc : env.classifyOk <;>
    · simp only [Bool.false_eq_true, if_false, if_true, setStatus]
      rw [getRow_updateRow_isSome _ _ _ (by intro r; rfl),
        getRow_updateRow_isSome _ _ _ (by intro r; rfl)]

theorem storeMetadataRun_storagePathPdf (p : MetaPayload) (env : Env) (st : PipeState)
    (d : String) :
    ((getRow d (storeMetadataRun p env st).1.registry).map (fun r => r.storagePathPdf)) =
      ((getRow d st.registry).map (fun r => r.storagePathPdf)) := by
  unfold storeMetadataRun
  cases hm : env.metadataOk
  · simp only [Bool.false_eq_true, if_false, setStatus]
    rw [getRow_updateRow_proj _ _ _ _ (by intro r; rfl) (by intro r; rfl)]
    rw [getRow_updateRow_proj _ _ _ _ (by intro r; rfl) (by intro r; rfl)]
  · simp only [if_true, setStatus]
    repeat' split
    all_goals
      rw [getRow_updateRow_proj _ _ _ _ (by intro r; rfl) (by intro r; rfl),
        getRow_updateRow_proj _ _ _ _ (by intro r; rfl) (by intro r; rfl)]

theorem storeMetadataRun_objects_pdf (p : MetaPayload) (env : Env) (st : PipeState)
    (a : String) :
    lookupObj (a ++ ".pdf") (storeMetadataRun p env st).1.objects =
      lookupObj (a ++ ".pdf") st.objects := by
  unfold storeMetadataRun
  cases hm : env.metadataOk
  · simp only [Bool.false_eq_true, if_false, setStatus]
  · simp only [if_true, setStatus]
    cases hx : p.extractedData with
    | none =>
        simp only [Option.isSome_none, Bool.false_and, Bool.false_eq_true, if_false]
    | some dd =>
        simp only [Option.isSome_some, if_true]
        repeat' split
        all_goals
          rw [lookupObj_putObj_ne _ _ _ _
            (fun hh => jsonPath_ne_pdfPath _ _ hh.symm)]

theorem storeFileRun_ok (p : StorePayload) (env : Env) (st : PipeState)
    (hstore : env.storeOk = true) :
    (storeFileRun p env st).2 =
      .ok { stored := true,
            storagePath := folderNameMap p.documentType ++ "/" ++ toString env.storeYear
              ++ "/" ++ month2 env.storeMonth ++ "/" ++ p.docId ++ ".pdf",
            deletedFromInbox := true } := by
  unfold storeFileRun
  simp only [hstore, if_true]

theorem storeFileRun_safe (p : StorePayload) (env : Env) (st : PipeState) (c : ObjContent)
    (hstore : env.storeOk = true)
    (hobj : lookupObj p.storagePath st.objects = some c)
    (hrow : (getRow p.docId st.registry).isSome = true)
    (hne : folderNameMap p.documentType ++ "/" ++ toString env.storeYear ++ "/"
        ++ month2 env.storeMonth ++ "/" ++ p.docId ++ ".pdf" ≠ p.storagePath) :
    ((getRow p.docId (storeFileRun p env st).1.registry).map (fun r => r.storagePathPdf)) =
      some (some (folderNameMap p.documentType ++ "/" ++ toString env.storeYear ++ "/"
        ++ month2 env.storeMonth ++ "/" ++ p.docId ++ ".pdf")) ∧
    lookupObj (folderNameMap p.documentType ++ "/" ++ toString env.storeYear ++ "/"
        ++ month2 env.storeMonth ++ "/" ++ p.docId ++ ".pdf")
      (storeFileRun p env st).1.objects = some c := by
  obtain ⟨r0, hr0⟩ := Option.isSome_iff_exists.mp hrow
  unfold storeFileRun
  by_cases hmv : env.driveMoveConfigured = true <;>
    simp only [hstore, hmv, if_true, Bool.false_eq_true, if_false, setStatus, hobj] <;>
    constructor
  all_goals
    first
    | (rw [getRow_updateRow _ _ (by intro r; rfl), getRow_updateRow _ _ (by intro r; rfl),
        hr0]
       rfl)
    | (rw [lookupObj_delObj_ne _ _ _ hne, lookupObj_putObj_self])

theorem registerDocumentRun_ok (payload : WorkflowInput) (env : Env) (st : PipeState)
    (hreg : env.registerDbOk = true) (hfresh : getRow payload.fileId st.registry = none) :
    (registerDocumentRun payload env st).2 =
      .ok { registryId := "reg-" ++ payload.fileId, docId := payload.fileId } := by
  unfold registerDocumentRun
  rw [hfresh]
  simp [hreg]

theorem registerDocumentRun_getRow (payload : WorkflowInput) (env : Env) (st : PipeState)
    (hreg : env.registerDbOk = true) (hfresh : getRow payload.fileId st.registry = none) :
    getRow payload.fileId (registerDocumentRun payload env st).1.registry =
      some (initRow payload) := by
  unfold registerDocumentRun
  rw [hfresh]
  simp only [hreg, if_true]
  rw [getRow_append_of_none _ _ _ hfresh]
  simp [initRow]

theorem registerDocumentRun_objects (payload : WorkflowInput) (env : Env) (st : PipeState) :
    (registerDocumentRun payload env st).1.objects = st.objects := by
  unfold registerDocumentRun
  cases hr : env.registerDbOk
  · simp
  · simp only [if_true]
    cases hrow : getRow payload.fileId st.registry <;> simp

theorem downloadAndPrepareRun_ok (p : DownloadPayload) (env : Env) (st : PipeState)
    (hm : p.mimeType = "application/pdf") (hd : env.driveOk = true) :
    (downloadAndPrepareRun p env st).2 =
      .ok { storagePath := "inbox/" ++ p.docId ++ ".pdf",
            metadata := { fileName := p.fileName, mimeType := p.mimeType,
                          size := env.fileSize, createdTime := env.driveCreatedTime } } := by
  unfold downloadAndPrepareRun
  simp [hm, hd]

theorem downloadAndPrepareRun_objects (p : DownloadPayload) (env : Env) (st : PipeState)
    (hm : p.mimeType = "application/pdf") (hd : env.driveOk = true) :
    (downloadAndPrepareRun p env st).1.objects =
      putObj ("inbox/" ++ p.docId ++ ".pdf") (.pdfFile p.fileId) st.objects := by
  unfold downloadAndPrepareRun
  simp [hm, hd, setStatus]

theorem downloadAndPrepareRun_row_isSome (p : DownloadPayload) (env : Env) (st : PipeState)
    (d : String) :
    (getRow d (downloadAndPrepareRun p env st).1.registry).isSome =
      (getRow d st.registry).isSome := by
  unfold downloadAndPrepareRun
  by_cases hm : p.mimeType = "application/pdf" <;>
    cases hd : env.driveOk <;>
      simp only [hm, hd, if_true, if_false, Bool.false_eq_true, ite_true, ite_false,
        setStatus, setStatusErr] <;>
      repeat rw [getRow_updateRow_isSome _ _ _ (by intro r; rfl)]

/-- C8: in every run a single idempotency key is derived from the source
file id with global scope, and every stage invocation carries that key with
the 10-minute TTL. -/
theorem c8_idempotency_key (payload : WorkflowInput) (env : Env) (st0 : PipeState)
    (inv : Invocation) (h : inv ∈ (processDocumentWorkflow payload env st0).2.1) :
    inv.key.seed = payload.fileId ∧ inv.key.scope = "global" ∧ inv.ttl = "10m" := by
  simp only [processDocumentWorkflow] at h
  split at h
  · simp only [List.mem_singleton] at h
    subst h
    exact ⟨rfl, rfl, rfl⟩
  · split at h
    · simp only [List.mem_cons, List.mem_singleton] at h
      rcases h with h | h | h <;> first | (subst h; exact ⟨rfl, rfl, rfl⟩) | cases h
    · split at h
      · simp only [List.mem_cons, List.mem_singleton] at h
        rcases h with h | h | h | h | h <;>
          first | (subst h; exact ⟨rfl, rfl, rfl⟩) | cases h
      · split at h <;>
        · simp only [List.mem_append, List.mem_cons, List.mem_singleton] at h
          rcases h with ((h | h | h | h | h) | h) | (h | h)
          any_goals (subst h; exact ⟨rfl, rfl, rfl⟩)
          any_goals cases h
          · have := runExtraction_mem _ _ _ _ _ _ h
            rw [this.1, this.2.1]
            exact ⟨rfl, rfl, rfl⟩

/-- C9: every extraction invocation issued by the orchestrator carries a
non-null Claude file id, so the extraction tasks' required-file-id error
branch is unreachable from the orchestrator. -/
theorem c9_claude_file_id (payload : WorkflowInput) (env : Env) (st0 : PipeState)
    (inv : Invocation) (h : inv ∈ (processDocumentWorkflow payload env st0).2.1)
    (hx : inv.stage.isExtract = true) :
    inv.claudeFileId.isSome = true := by
  simp only [processDocumentWorkflow] at h
  split at h
  · simp only [List.mem_singleton] at h
    subst h
    simp [call, Stage.isExtract] at hx
  · split at h
    · simp only [List.mem_cons, List.mem_singleton] at h
      rcases h with h | h | h <;>
        first | (subst h; simp [call, Stage.isExtract] at hx) | cases h
    · split at h
      · simp only [List.mem_cons, List.mem_singleton] at h
        rcases h with h | h | h | h | h <;>
          first | (subst h; simp [call, Stage.isExtract] at hx) | cases h
      · split at h <;>
        · simp only [List.mem_append, List.mem_cons, List.mem_singleton] at h
          rcases h with ((h | h | h | h | h) | h) | (h | h)
          any_goals (subst h; simp [call, Stage.isExtract] at hx)
          any_goals cases h
          · rcases runExtraction_mem _ _ _ _ _ _ h with ⟨-, -, hcf, -, hdt, -⟩
            by_cases hio : env.classifyInfraOk = true
            · simp only [hio, if_true, Option.map_some', Option.getD_some] at hdt
              simp only [hio, if_true, Option.some_bind] at hcf
              rw [classifyResult_claudeFileId_of_ne_unknown env hdt] at hcf
              rw [hcf]
              rfl
            · simp only [hio, if_false] at hdt
              simp at hdt

/-- C1: for a classification whose raw confidence is below 0.8, the classify
stage forces the recorded and returned `documentType` to `unknown` while
`possibleType` preserves the raw label, and the orchestrator never invokes
any extraction task in such a run. -/
theorem c1_confidence_gating (payload : WorkflowInput) (env : Env) (st0 st : PipeState)
    (docId storagePath : String)
    (hconf : env.rawClassification.confidence < confidenceThreshold) :
    (∀ inv ∈ (processDocumentWorkflow payload env st0).2.1, inv.stage.isExtract = false) ∧
    (env.classifyOk = true →
      (classifyDocumentRun docId storagePath env st).2.documentType = DocumentType.unknown ∧
      (classifyDocumentRun docId storagePath env st).2.possibleType =
        env.rawClassification.document_type ∧
      ∀ r, getRow docId (classifyDocumentRun docId storagePath env st).1.registry = some r →
        r.classification = some DocumentType.unknown ∧
        r.possibleType = some env.rawClassification.document_type) := by
  have hclt : ((Option.map (fun x : ClassificationResult => x.confidence)
      (if env.classifyInfraOk = true then some (classifyResult env) else none)).getD 0)
      < confidenceThreshold := by
    by_cases hio : env.classifyInfraOk = true
    · simp only [hio, if_true, Option.map_some', Option.getD_some]
      exact classifyResult_confidence_lt env hconf
    · simp only [hio, Bool.false_eq_true, if_false, Option.map_none', Option.getD_none]
      decide
  constructor
  · intro inv h
    simp only [processDocumentWorkflow] at h
    split at h
    · simp only [List.mem_singleton] at h
      subst h
      rfl
    · split at h
      · simp only [List.mem_cons, List.mem_singleton] at h
        rcases h with h | h | h <;> first | (subst h; rfl) | cases h
      · split at h
        · simp only [List.mem_cons, List.mem_singleton] at h
          rcases h with h | h | h | h | h <;> first | (subst h; rfl) | cases h
        · rw [runExtraction_of_lowConfidence _ _ _ _ _ hclt] at h
          split at h <;>
          · simp only [List.append_nil, List.nil_append, List.mem_append, List.mem_cons,
              List.mem_singleton, List.not_mem_nil, or_false, false_or] at h
            rcases h with (rfl | rfl | rfl | rfl) | rfl <;> rfl
  · intro hok
    have hle : ¬ (confidenceThreshold ≤ env.rawClassification.confidence) := not_le.mpr hconf
    refine ⟨?_, ?_, ?_⟩
    · rw [classifyDocumentRun_snd]
      unfold classifyResult thresholdedType
      simp [hok, hle]
    · rw [classifyDocumentRun_snd]
      unfold classifyResult
      simp [hok]
    · intro r hr
      unfold classifyDocumentRun at hr
      simp only [hok, if_true, setStatus] at hr
      rw [getRow_updateRow _ _ (by intro r; rfl)] at hr
      rw [getRow_updateRow _ _ (by intro r; rfl)] at hr
      cases hrow : getRow docId st.registry with
      | none => rw [hrow] at hr; cases hr
      | some r0 =>
          rw [hrow] at hr
          simp only [Option.map_some', Option.some.injEq] at hr
          subst hr
          unfold thresholdedType
          simp [hle]

/-- Final-status derivation as the specification words it: `extraction_failed`
if an extraction error was recorded; else `rejected` if no payload was
produced or the effective type is `unknown`; else `processed`. -/
def specFinalStatus (extractionError : Option String) (extractedData : Option ExtractedData)
    (effectiveType : DocumentType) : DocumentStatus :=
  if extractionError.isSome then .extraction_failed
  else if extractedData.isNone ∨ effectiveType = .unknown then .rejected
  else .processed

/-- C2: the Persist-Metadata stage computes the final status as the
specification's pure function of the recorded extraction error, the
extracted payload and the effective document type, for every combination of
inputs (the recorded error message, when present, being nonempty). -/
theorem c2_final_status (p : MetaPayload) (env : Env) (st : PipeState)
    (hok : env.metadataOk = true)
    (hne : ∀ s, p.extractionError = some s → s ≠ "") :
    ((storeMetadataRun p env st).2.toOption.map (·.status)) =
      some (specFinalStatus p.extractionError p.extractedData p.documentType) := by
  unfold storeMetadataRun
  simp only [hok, if_true, Except.toOption, Option.map_some']
  congr 1
  unfold determineFinalStatus specFinalStatus jsTruthy
  cases he : p.extractionError with
  | none =>
      simp only [Option.isSome_none, Bool.false_eq_true, if_false]
      cases hd : p.extractedData with
      | none => simp
      | some d =>
          by_cases hu : p.documentType = DocumentType.unknown <;> simp [hu]
  | some s =>
      have hs : s ≠ "" := hne s he
      simp [hs]

/-- A sample workflow input over a PDF source file, used by concrete runs. -/
def samplePayload : WorkflowInput :=
  { fileId := "f1", fileName := "invoice-2025-09.pdf", mimeType := "application/pdf",
    createdTime := "2025-09-30T10:30:00Z" }

/-- A raw classifier output: invoice with confidence 0.95. -/
def sampleRaw : RawClassification :=
  { document_type := .invoice, confidence := mkRat 19 20, reasoning := "looks like an invoice" }

/-- An environment in which every external collaborator succeeds, with a
September 2025 clock. -/
def happyEnv : Env :=
  { registerDbOk := true, registerErr := "db down",
    driveOk := true, driveErr := "drive down", fileSize := 1000,
    driveCreatedTime := "2025-09-30T10:00:00Z",
    classifyInfraOk := true, classifyOk := true, classifyErr := "claude down",
    claudeFileId := "file-abc", rawClassification := sampleRaw,
    driveMoveConfigured := true, storeOk := true, storeErr := "s3 down",
    storeYear := 2025, storeMonth := 9,
    extractOk := true, extractErr := "extract down",
    invoicePayload := { payload := "inv" }, statementPayload := { payload := "stmt" },
    letterPayload := { payload := "ltr" },
    metadataOk := true, metadataErr := "meta down", metaYear := 2025, metaMonth := 9 }

/-- The registry state after one successful registration of the sample
payload. -/
def registeredState : PipeState := (registerDocumentRun samplePayload happyEnv initState).1

/-- C4 counterexample: re-running the Register stage for an
already-registered source file does not succeed idempotently: the blind
`INSERT` hits the `doc_id` UNIQUE constraint and the stage fails, so the
registration write does not have upsert semantics. -/
theorem c4_upsert_counterexample :
    (registerDocumentRun samplePayload happyEnv registeredState).2 =
      .error "Failed to register document: duplicate key value violates unique constraint" ∧
    (registerDocumentRun samplePayload happyEnv registeredState).2.toOption = none := by
  constructor <;> rfl

/-- C4 amended: a second registration attempt for an already-registered
source file never creates a second registry row — the blind insert fails on
the UNIQUE `doc_id` constraint, leaving the registry unchanged and aborting
that run, rather than converging by upsert. -/
theorem c4_register_no_duplicate (p : WorkflowInput) (env : Env) (st : PipeState)
    (hok : env.registerDbOk = true)
    (hdup : (getRow p.fileId st.registry).isSome = true) :
    (registerDocumentRun p env st).1.registry = st.registry ∧
    (registerDocumentRun p env st).2 =
      .error "Failed to register document: duplicate key value violates unique constraint" := by
  unfold registerDocumentRun
  simp only [hok, if_true]
  cases hrow : getRow p.fileId st.registry with
  | none => rw [hrow] at hdup; simp at hdup
  | some r => exact ⟨rfl, rfl⟩

/-- Canonical-path convention exactly as the specification words it:
`{documentType}/{year}/{month}/{docId}.{ext}`. -/
def specCanonicalPath (documentType : DocumentType) (year month : Nat)
    (docId ext : String) : String :=
  docTypeStr documentType ++ "/" ++ toString year ++ "/" ++ month2 month
    ++ "/" ++ docId ++ "." ++ ext

/-- C5 counterexample: the sample invoice run (confidence 0.95, September
2025) stores the artifact at `invoices/2025/09/f1.pdf`, not at the
specification's `invoice/2025/09/f1.pdf`. -/
theorem c5_canonical_path_counterexample :
    ((processDocumentWorkflow samplePayload happyEnv initState).2.2.toOption.map
        (fun o => o.pdfStoragePath)) = some "invoices/2025/09/f1.pdf" ∧
    specCanonicalPath .invoice 2025 9 "f1" "pdf" = "invoice/2025/09/f1.pdf" ∧
    "invoices/2025/09/f1.pdf" ≠ specCanonicalPath .invoice 2025 9 "f1" "pdf" := by
  refine ⟨rfl, rfl, ?_⟩
  decide

/-- C5 amended: the Store stage computes the canonical path as
`{folder}/{year}/{month}/{docId}.pdf`, i.e. the path utility
`buildDocumentStoragePath`, where the folder is the plural mapping of the
document type (`invoices`/`statements`/`letters`) with `unknown` as the
fallback folder; the sample September-2025 invoice run stores at
`invoices/2025/09/f1.pdf`. -/
theorem c5_canonical_path_amended (p : StorePayload) (env : Env) (st : PipeState)
    (hok : env.storeOk = true) :
    ((storeFileRun p env st).2.toOption.map (fun o => o.storagePath)) =
      some (buildDocumentStoragePath p.documentType p.docId "pdf"
        env.storeYear env.storeMonth) ∧
    ((processDocumentWorkflow samplePayload happyEnv initState).2.2.toOption.map
        (fun o => o.pdfStoragePath)) = some "invoices/2025/09/f1.pdf" := by
  constructor
  · unfold storeFileRun
    simp only [hok, if_true, Except.toOption, Option.map_some']
    unfold buildDocumentStoragePath getDocumentFolder
    have hdot : ∀ s : String, s ++ "." ++ "pdf" = s ++ ".pdf" := by
      intro s
      apply String.ext
      simp [String.data_append, List.append_assoc]
    rw [hdot]
  · rfl

/-- C6 counterexample: with a failing registry the orchestrator run does not
return a `WorkflowOutput`; it propagates a thrown error to its caller. -/
theorem c6_error_crosses_boundary_counterexample :
    (processDocumentWorkflow samplePayload { happyEnv with registerDbOk := false }
        initState).2.2 =
      .error "Failed to register document: Failed to register document: db down" ∧
    (processDocumentWorkflow samplePayload { happyEnv with registerDbOk := false }
        initState).2.2.toOption = none := by
  constructor <;> rfl

/-- C6 amended: an error crosses the orchestrator boundary exactly for
registration, file-storage and metadata-persistence failures, each wrapped
with its stage message; every other outcome is returned as a
`WorkflowOutput`. -/
theorem c6_error_boundary_amended (payload : WorkflowInput) (env : Env) (st0 : PipeState)
    (e : String) (h : (processDocumentWorkflow payload env st0).2.2 = .error e) :
    (∃ m, e = "Failed to register document: " ++ m) ∨
    (∃ m, e = "File storage failed: " ++ m) ∨
    (∃ m, e = "Metadata storage failed: " ++ m) := by
  simp only [processDocumentWorkflow] at h
  split at h
  · simp only [Except.error.injEq] at h
    exact Or.inl ⟨_, h.symm⟩
  · split at h
    · simp at h
    · split at h
      · simp only [Except.error.injEq] at h
        exact Or.inr (Or.inl ⟨_, h.symm⟩)
      · split at h
        · simp only [Except.error.injEq] at h
          exact Or.inr (Or.inr ⟨_, h.symm⟩)
        · simp at h

/-- C7: when the Download stage fails (Drive unavailable beyond retries), the
registry row ends in `download_failed` with the failure message, the
orchestrator returns a `download_failed` output with unknown type, zero
confidence, empty pdf path and `inboxCleaned = false`, and neither Classify,
Store, Extract nor Persist-Metadata is ever invoked. -/
theorem c7_download_failure (payload : WorkflowInput) (env : Env) (st0 : PipeState)
    (hmime : payload.mimeType = "application/pdf")
    (hreg : env.registerDbOk = true)
    (hfresh : getRow payload.fileId st0.registry = none)
    (hdrive : env.driveOk = false) :
    (processDocumentWorkflow payload env st0).2.2 =
      .ok { status := .download_failed, documentType := .unknown, confidence := 0,
            registryId := "reg-" ++ payload.fileId, docId := payload.fileId,
            pdfStoragePath := "", jsonStoragePath := none, inboxCleaned := false,
            error := some ("Failed to download and prepare file: " ++ env.driveErr) } ∧
    getRow payload.fileId (processDocumentWorkflow payload env st0).1.registry =
      some { (initRow payload) with status := DocumentStatus.download_failed,
                                    errorMessage := some env.driveErr } ∧
    ((processDocumentWorkflow payload env st0).2.1.map (fun i => i.stage)) =
      [.register, .download] := by
  simp only [processDocumentWorkflow, registerDocumentRun, downloadAndPrepareRun,
    hreg, hfresh, hmime, hdrive, if_true, Bool.false_eq_true, if_false,
    setStatus, setStatusErr, ite_true, ite_false, List.map_cons, List.map_nil]
  refine ⟨by trivial, ?_, by trivial⟩
  rw [getRow_updateRow _ _ (by intro r; rfl)]
  rw [getRow_updateRow _ _ (by intro r; rfl)]
  rw [getRow_append_of_none _ _ _ hfresh]
  simp [initRow]

/-- C10: for a payload whose MIME type is not `application/pdf`, the Download
stage records `download_failed` with the message
`Unsupported MIME type: <mimeType>` and throws before any Google Drive call,
and the run terminates with a `download_failed` output without invoking
Classify, Store, Extract or Persist-Metadata. -/
theorem c10_mime_gate (payload : WorkflowInput) (env : Env) (st0 : PipeState)
    (hmime : payload.mimeType ≠ "application/pdf")
    (hreg : env.registerDbOk = true)
    (hfresh : getRow payload.fileId st0.registry = none) :
    (processDocumentWorkflow payload env st0).2.2 =
      .ok { status := .download_failed, documentType := .unknown, confidence := 0,
            registryId := "reg-" ++ payload.fileId, docId := payload.fileId,
            pdfStoragePath := "", jsonStoragePath := none, inboxCleaned := false,
            error := some ("Failed to download and prepare file: "
              ++ ("Unsupported MIME type: " ++ payload.mimeType)) } ∧
    getRow payload.fileId (processDocumentWorkflow payload env st0).1.registry =
      some { (initRow payload) with status := DocumentStatus.download_failed,
                                    errorMessage := some ("Unsupported MIME type: "
                                      ++ payload.mimeType) } ∧
    (processDocumentWorkflow payload env st0).1.driveCalls = st0.driveCalls ∧
    ((processDocumentWorkflow payload env st0).2.1.map (fun i => i.stage)) =
      [.register, .download] := by
  simp only [processDocumentWorkflow, registerDocumentRun, downloadAndPrepareRun,
    hreg, hfresh, hmime, if_true, if_false, ite_false,
    setStatus, setStatusErr, List.map_cons, List.map_nil]
  refine ⟨by trivial, ?_, by trivial, by trivial⟩
  rw [getRow_updateRow _ _ (by intro r; rfl)]
  rw [getRow_updateRow _ _ (by intro r; rfl)]
  rw [getRow_updateRow _ _ (by intro r; rfl)]
  rw [getRow_append_of_none _ _ _ hfresh]
  simp [initRow]

/-- C3: once the Store stage has succeeded, the canonical artifact and the
`storage_path_pdf` registry field survive the rest of the run untouched — for
every outcome of the extraction and metadata-persistence stages (success,
degraded failure, or thrown failure), the final state still has the registry
row pointing at the stored path, and the object store still holds the
original PDF content at that path. -/
theorem c3_safe_point_durability (payload : WorkflowInput) (env : Env) (st0 : PipeState)
    (hmime : payload.mimeType = "application/pdf")
    (hreg : env.registerDbOk = true)
    (hfresh : getRow payload.fileId st0.registry = none)
    (hdrive : env.driveOk = true)
    (hstore : env.storeOk = true) :
    ∃ pth,
      ((getRow payload.fileId (processDocumentWorkflow payload env st0).1.registry).map
          (fun r => r.storagePathPdf)) = some (some pth) ∧
      lookupObj pth (processDocumentWorkflow payload env st0).1.objects =
        some (ObjContent.pdfFile payload.fileId) := by
  simp only [processDocumentWorkflow]
  rw [registerDocumentRun_ok payload env st0 hreg hfresh]
  dsimp only
  rw [downloadAndPrepareRun_ok _ env _ hmime hdrive]
  dsimp only
  rw [storeFileRun_ok _ _ _ hstore]
  dsimp only
  by_cases hio : env.classifyInfraOk = true
  · simp only [hio, if_true]
    set dp : DownloadPayload :=
      { docId := payload.fileId, fileId := payload.fileId,
        fileName := payload.fileName, mimeType := payload.mimeType } with hdp
    set st1 : PipeState := (registerDocumentRun payload env st0).1 with hst1
    set st2 : PipeState := (downloadAndPrepareRun dp env st1).1 with hst2
    set st3 : PipeState :=
      (classifyDocumentRun payload.fileId ("inbox/" ++ payload.fileId ++ ".pdf") env st2).1
      with hst3
    set sp : StorePayload :=
      { docId := payload.fileId, fileId := payload.fileId,
        storagePath := "inbox/" ++ payload.fileId ++ ".pdf", fileName := payload.fileName,
        documentType :=
          (Option.map (fun x => x.documentType) (some (classifyResult env))).getD
            DocumentType.unknown,
        metadata := { fileName := payload.fileName, mimeType := payload.mimeType,
                      size := env.fileSize, createdTime := env.driveCreatedTime } } with hsp
    have hobj : lookupObj sp.storagePath st3.objects =
        some (ObjContent.pdfFile payload.fileId) := by
      rw [hst3, classifyDocumentRun_objects, hst2,
        downloadAndPrepareRun_objects _ _ _ hmime hdrive]
      exact lookupObj_putObj_self _ _ _
    have hrow : (getRow sp.docId st3.registry).isSome = true := by
      rw [hst3, classifyDocumentRun_row_isSome, hst2, downloadAndPrepareRun_row_isSome,
        hst1, registerDocumentRun_getRow payload env st0 hreg hfresh]
      rfl
    have hne := storePath_ne_inboxPath sp.documentType (toString env.storeYear)
      (month2 env.storeMonth) payload.fileId payload.fileId
    have hsafe := storeFileRun_safe sp env st3 (ObjContent.pdfFile payload.fileId)
      hstore hobj hrow hne
    split <;>
    · refine ⟨folderNameMap sp.documentType ++ "/" ++ toString env.storeYear ++ "/"
        ++ month2 env.storeMonth ++ "/" ++ sp.docId ++ ".pdf", ?_, ?_⟩
      · rw [storeMetadataRun_storagePathPdf]
        exact hsafe.1
      · rw [storeMetadataRun_objects_pdf]
        exact hsafe.2
  · simp only [hio, Bool.false_eq_true, if_false]
    set dp : DownloadPayload :=
      { docId := payload.fileId, fileId := payload.fileId,
        fileName := payload.fileName, mimeType := payload.mimeType } with hdp
    set st1 : PipeState := (registerDocumentRun payload env st0).1 with hst1
    set st2 : PipeState := (downloadAndPrepareRun dp env st1).1 with hst2
    set sp : StorePayload :=
      { docId := payload.fileId, fileId := payload.fileId,
        storagePath := "inbox/" ++ payload.fileId ++ ".pdf", fileName := payload.fileName,
        documentType :=
          (Option.map (fun x : ClassificationResult => x.documentType) none).getD
            DocumentType.unknown,
        metadata := { fileName := payload.fileName, mimeType := payload.mimeType,
                      size := env.fileSize, createdTime := env.driveCreatedTime } } with hsp
    have hobj : lookupObj sp.storagePath st2.objects =
        some (ObjContent.pdfFile payload.fileId) := by
      rw [hst2, downloadAndPrepareRun_objects _ _ _ hmime hdrive]
      exact lookupObj_putObj_self _ _ _
    have hrow : (getRow sp.docId st2.registry).isSome = true := by
      rw [hst2, downloadAndPrepareRun_row_isSome,
        hst1, registerDocumentRun_getRow payload env st0 hreg hfresh]
      rfl
    have hne := storePath_ne_inboxPath sp.documentType (toString env.storeYear)
      (month2 env.storeMonth) payload.fileId payload.fileId
    have hsafe := storeFileRun_safe sp env st2 (ObjContent.pdfFile payload.fileId)
      hstore hobj hrow hne
    split <;>
    · refine ⟨folderNameMap sp.documentType ++ "/" ++ toString env.storeYear ++ "/"
        ++ month2 env.storeMonth ++ "/" ++ sp.docId ++ ".pdf", ?_, ?_⟩
      · rw [storeMetadataRun_storagePathPdf]
        exact hsafe.1
      · rw [storeMetadataRun_objects_pdf]
        exact hsafe.2

/-- An environment whose classifier labels the sample document `invoice` with
confidence 0.5 (below the 0.8 threshold); everything else succeeds. -/
def lowConfEnv : Env :=
  { happyEnv with rawClassification := { sampleRaw with confidence := mkRat 1 2 } }

/-- An environment whose registry database is down. -/
def regFailEnv : Env := { happyEnv with registerDbOk := false }

/-- An environment whose Google Drive download fails beyond retries. -/
def driveFailEnv : Env := { happyEnv with driveOk := false }

/-- A non-PDF workflow input. -/
def pngPayload : WorkflowInput := { samplePayload with mimeType := "image/png" }

/-- Witness for C1 at the 0.5-confidence sample run. -/
theorem c1_confidence_gating_witness :
    lowConfEnv.rawClassification.confidence < confidenceThreshold ∧
    ((∀ inv ∈ (processDocumentWorkflow samplePayload lowConfEnv initState).2.1,
        inv.stage.isExtract = false) ∧
      (lowConfEnv.classifyOk = true →
        (classifyDocumentRun "f1" "inbox/f1.pdf" lowConfEnv initState).2.documentType =
          DocumentType.unknown ∧
        (classifyDocumentRun "f1" "inbox/f1.pdf" lowConfEnv initState).2.possibleType =
          lowConfEnv.rawClassification.document_type ∧
        ∀ r, getRow "f1"
            (classifyDocumentRun "f1" "inbox/f1.pdf" lowConfEnv initState).1.registry =
            some r →
          r.classification = some DocumentType.unknown ∧
          r.possibleType = some lowConfEnv.rawClassification.document_type)) :=
  ⟨by decide,
   c1_confidence_gating samplePayload lowConfEnv initState initState "f1" "inbox/f1.pdf"
     (by decide)⟩

/-- A sample store-metadata payload carrying an extraction error. -/
def mpSample : MetaPayload :=
  { docId := "f1", documentType := .invoice, classification := none,
    extractedData := none, extractionError := some "boom" }

/-- Witness for C2 at a payload with a recorded extraction error. -/
theorem c2_final_status_witness :
    (happyEnv.metadataOk = true ∧ (∀ s, mpSample.extractionError = some s → s ≠ "")) ∧
    ((storeMetadataRun mpSample happyEnv initState).2.toOption.map (fun o => o.status)) =
      some (specFinalStatus mpSample.extractionError mpSample.extractedData
        mpSample.documentType) :=
  ⟨⟨rfl, fun s hs => by cases hs; decide⟩,
   c2_final_status mpSample happyEnv initState rfl (fun s hs => by cases hs; decide)⟩

/-- Witness for C3 at the sample happy-path run. -/
theorem c3_safe_point_durability_witness :
    (samplePayload.mimeType = "application/pdf" ∧ happyEnv.registerDbOk = true ∧
      getRow samplePayload.fileId initState.registry = none ∧ happyEnv.driveOk = true ∧
      happyEnv.storeOk = true) ∧
    ∃ pth,
      ((getRow samplePayload.fileId
          (processDocumentWorkflow samplePayload happyEnv initState).1.registry).map
          (fun r => r.storagePathPdf)) = some (some pth) ∧
      lookupObj pth (processDocumentWorkflow samplePayload happyEnv initState).1.objects =
        some (ObjContent.pdfFile samplePayload.fileId) :=
  ⟨⟨rfl, rfl, rfl, rfl, rfl⟩,
   c3_safe_point_durability samplePayload happyEnv initState rfl rfl rfl rfl rfl⟩

/-- Witness for C4 at a second registration of the sample payload. -/
theorem c4_register_no_duplicate_witness :
    (happyEnv.registerDbOk = true ∧
      (getRow samplePayload.fileId registeredState.registry).isSome = true) ∧
    ((registerDocumentRun samplePayload happyEnv registeredState).1.registry =
        registeredState.registry ∧
      (registerDocumentRun samplePayload happyEnv registeredState).2 =
        .error "Failed to register document: duplicate key value violates unique constraint") :=
  ⟨⟨rfl, by decide⟩,
   c4_register_no_duplicate samplePayload happyEnv registeredState rfl (by decide)⟩

/-- A sample store-file payload for a bank statement. -/
def spSample : StorePayload :=
  { docId := "d1", fileId := "f1", storagePath := "inbox/d1.pdf", fileName := "n.pdf",
    documentType := .bank_statement,
    metadata := { fileName := "n.pdf", mimeType := "application/pdf", size := 1,
                  createdTime := "t" } }

/-- Witness for C5 at a sample statement store. -/
theorem c5_canonical_path_amended_witness :
    happyEnv.storeOk = true ∧
    (((storeFileRun spSample happyEnv initState).2.toOption.map (fun o => o.storagePath)) =
      some (buildDocumentStoragePath spSample.documentType spSample.docId "pdf"
        happyEnv.storeYear happyEnv.storeMonth) ∧
    ((processDocumentWorkflow samplePayload happyEnv initState).2.2.toOption.map
        (fun o => o.pdfStoragePath)) = some "invoices/2025/09/f1.pdf") :=
  ⟨rfl, c5_canonical_path_amended spSample happyEnv initState rfl⟩

/-- Witness for C6 at a run whose registration fails. -/
theorem c6_error_boundary_amended_witness :
    (processDocumentWorkflow samplePayload regFailEnv initState).2.2 =
      .error "Failed to register document: Failed to register document: db down" ∧
    ((∃ m, "Failed to register document: Failed to register document: db down" =
        "Failed to register document: " ++ m) ∨
      (∃ m, "Failed to register document: Failed to register document: db down" =
        "File storage failed: " ++ m) ∨
      (∃ m, "Failed to register document: Failed to register document: db down" =
        "Metadata storage failed: " ++ m)) :=
  ⟨rfl, c6_error_boundary_amended samplePayload regFailEnv initState _ rfl⟩

/-- Witness for C7 at a run whose Drive download fails. -/
theorem c7_download_failure_witness :
    (samplePayload.mimeType = "application/pdf" ∧ driveFailEnv.registerDbOk = true ∧
      getRow samplePayload.fileId initState.registry = none ∧
      driveFailEnv.driveOk = false) ∧
    ((processDocumentWorkflow samplePayload driveFailEnv initState).2.2 =
      .ok { status := .download_failed, documentType := .unknown, confidence := 0,
            registryId := "reg-" ++ samplePayload.fileId, docId := samplePayload.fileId,
            pdfStoragePath := "", jsonStoragePath := none, inboxCleaned := false,
            error := some ("Failed to download and prepare file: "
              ++ driveFailEnv.driveErr) } ∧
    getRow samplePayload.fileId
        (processDocumentWorkflow samplePayload driveFailEnv initState).1.registry =
      some { (initRow samplePayload) with status := DocumentStatus.download_failed,
                                          errorMessage := some driveFailEnv.driveErr } ∧
    ((processDocumentWorkflow samplePayload driveFailEnv initState).2.1.map
        (fun i => i.stage)) = [.register, .download]) :=
  ⟨⟨rfl, rfl, rfl, rfl⟩,
   c7_download_failure samplePayload driveFailEnv initState rfl rfl rfl rfl⟩

/-- Witness for C8 at the register invocation of the sample happy run. -/
theorem c8_idempotency_key_witness :
    call Stage.register (mkIdempotencyKey "f1") ∈
      (processDocumentWorkflow samplePayload happyEnv initState).2.1 ∧
    ((call Stage.register (mkIdempotencyKey "f1")).key.seed = samplePayload.fileId ∧
      (call Stage.register (mkIdempotencyKey "f1")).key.scope = "global" ∧
      (call Stage.register (mkIdempotencyKey "f1")).ttl = "10m") :=
  ⟨by decide,
   c8_idempotency_key samplePayload happyEnv initState
     (call Stage.register (mkIdempotencyKey "f1")) (by decide)⟩

/-- Witness for C9 at the invoice-extraction invocation of the sample run. -/
theorem c9_claude_file_id_witness :
    (extractCall Stage.extractInvoice (mkIdempotencyKey "f1") (some "file-abc") ∈
        (processDocumentWorkflow samplePayload happyEnv initState).2.1 ∧
      (extractCall Stage.extractInvoice (mkIdempotencyKey "f1")
        (some "file-abc")).stage.isExtract = true) ∧
    (extractCall Stage.extractInvoice (mkIdempotencyKey "f1")
        (some "file-abc")).claudeFileId.isSome = true :=
  ⟨⟨by decide, rfl⟩,
   c9_claude_file_id samplePayload happyEnv initState
     (extractCall Stage.extractInvoice (mkIdempotencyKey "f1") (some "file-abc"))
     (by decide) rfl⟩

/-- Witness for C10 at a PNG input. -/
theorem c10_mime_gate_witness :
    (pngPayload.mimeType ≠ "application/pdf" ∧ happyEnv.registerDbOk = true ∧
      getRow pngPayload.fileId initState.registry = none) ∧
    ((processDocumentWorkflow pngPayload happyEnv initState).2.2 =
      .ok { status := .download_failed, documentType := .unknown, confidence := 0,
            registryId := "reg-" ++ pngPayload.fileId, docId := pngPayload.fileId,
            pdfStoragePath := "", jsonStoragePath := none, inboxCleaned := false,
            error := some ("Failed to download and prepare file: "
              ++ ("Unsupported MIME type: " ++ pngPayload.mimeType)) } ∧
    getRow pngPayload.fileId
        (processDocumentWorkflow pngPayload happyEnv initState).1.registry =
      some { (initRow pngPayload) with status := DocumentStatus.download_failed,
                                       errorMessage := some ("Unsupported MIME type: "
                                         ++ pngPayload.mimeType) } ∧
    (processDocumentWorkflow pngPayload happyEnv initState).1.driveCalls =
      initState.driveCalls ∧
    ((processDocumentWorkflow pngPayload happyEnv initState).2.1.map
        (fun i => i.stage)) = [.register, .download]) :=
  ⟨⟨by decide, rfl, rfl⟩,
   c10_mime_gate pngPayload happyEnv initState (by decide) rfl rfl⟩

end DocFlow
